import Mathlib

/-!
Verification development for the iCloud CalDAV bridge (src/server.py,
src/ical_utils.py, src/caldav_client.py).

The Python core is embedded shallowly:

* `parse_iso_datetime` mirrors `_parse_iso_datetime` in src/server.py
  (identical to `ICalUtils.parse_iso_datetime` in src/ical_utils.py).
  The stdlib calls `date.fromisoformat` / `datetime.fromisoformat` are
  modelled on the grammar subset the bridge exercises:
  `YYYY-MM-DD`, `YYYY-MM-DD{T or space}HH:MM[:SS]` with an optional
  `+HH:MM` / `-HH:MM` offset.  `ZoneInfo(name)` is modelled as always
  succeeding (constructor `Tz.zoneinfo`); no theorem below depends on the
  behaviour of an invalid zone name.  Strings are handled through their
  character lists.
* Events and alarms are structured records; `otherProps` holds the
  properties (ATTENDEE, CATEGORIES, STATUS, ...) that the rebuild code in
  server.py never reads, and which therefore survive a
  decode -> patch -> encode cycle only if the rebuild copies them.
* The four mutating tools are embedded as pure functions from the parsed
  original event (plus fresh-UID / current-time / save-outcome inputs that
  stand for `uuid4()`, `datetime.now(timezone.utc)` and `event_obj.save()`)
  to the event written back and the response dictionary.
-/

/-- Python `tzinfo` values as this code produces them: `timezone.utc` and
fixed offsets are `utcOff` (minutes east of UTC, `timezone.utc = utcOff 0`),
`ZoneInfo(name)` is `zoneinfo name`. -/
inductive Tz where
  | utcOff (minutes : Int)
  | zoneinfo (name : String)
deriving DecidableEq, Repr

/-- A Python `datetime` value: six clock fields plus an optional `tzinfo`
(`none` = naive). -/
structure PyDateTime where
  year : Nat
  month : Nat
  day : Nat
  hour : Nat
  minute : Nat
  second : Nat
  tz : Option Tz
deriving DecidableEq, Repr

deriving instance DecidableEq for Except

/-- Python `value.strip()`. -/
def pyStrip (cs : List Char) : List Char :=
  ((cs.dropWhile Char.isWhitespace).reverse.dropWhile Char.isWhitespace).reverse

/-- Two decimal digit characters to a number. -/
def nat2 (a b : Char) : Option Nat :=
  if a.isDigit && b.isDigit then some ((a.toNat - 48) * 10 + (b.toNat - 48)) else none

/-- Four decimal digit characters to a number. -/
def nat4 (a b c d : Char) : Option Nat :=
  if a.isDigit && b.isDigit && c.isDigit && d.isDigit then
    some ((a.toNat - 48) * 1000 + (b.toNat - 48) * 100 + (c.toNat - 48) * 10 + (d.toNat - 48))
  else none

def isLeapYear (y : Nat) : Bool :=
  (y % 4 == 0 && y % 100 != 0) || y % 400 == 0

def daysInMonth (y m : Nat) : Nat :=
  if m == 2 then (if isLeapYear y then 29 else 28)
  else if m == 4 || m == 6 || m == 9 || m == 11 then 30
  else 31

/-- Python `date.fromisoformat` on the strict `YYYY-MM-DD` shape
(the only shape reachable here: the caller has already checked length 10
and dashes at positions 4 and 7). -/
def date_fromiso : List Char → Option (Nat × Nat × Nat)
  | [y1, y2, y3, y4, s1, m1, m2, s2, d1, d2] =>
    if s1 == '-' && s2 == '-' then
      match nat4 y1 y2 y3 y4, nat2 m1 m2, nat2 d1 d2 with
      | some y, some m, some d =>
        if 1 ≤ y ∧ y ≤ 9999 ∧ 1 ≤ m ∧ m ≤ 12 ∧ 1 ≤ d ∧ d ≤ daysInMonth y m then
          some (y, m, d)
        else none
      | _, _, _ => none
    else none
  | _ => none

/-- `HH:MM` or `HH:MM:SS`. -/
def time_fromiso : List Char → Option (Nat × Nat × Nat)
  | [h1, h2, c1, m1, m2] =>
    if c1 == ':' then
      match nat2 h1 h2, nat2 m1 m2 with
      | some h, some mi => if h ≤ 23 ∧ mi ≤ 59 then some (h, mi, 0) else none
      | _, _ => none
    else none
  | [h1, h2, c1, m1, m2, c2, s1, s2] =>
    if c1 == ':' && c2 == ':' then
      match nat2 h1 h2, nat2 m1 m2, nat2 s1 s2 with
      | some h, some mi, some s =>
        if h ≤ 23 ∧ mi ≤ 59 ∧ s ≤ 59 then some (h, mi, s) else none
      | _, _, _ => none
    else none
  | _ => none

/-- A `+HH:MM` or `-HH:MM` UTC offset, in minutes. -/
def offset_fromiso : List Char → Option Int
  | [sgn, h1, h2, c, m1, m2] =>
    if (sgn == '+' || sgn == '-') && c == ':' then
      match nat2 h1 h2, nat2 m1 m2 with
      | some h, some mi =>
        if mi ≤ 59 ∧ h * 60 + mi < 1440 then
          some (if sgn == '+' then (h * 60 + mi : Int) else -(h * 60 + mi : Int))
        else none
      | _, _ => none
    else none
  | _ => none

/-- Split a time-of-day string at the first `+` or `-` (start of the offset). -/
def splitAtSign (cs : List Char) : List Char × List Char :=
  let t := cs.takeWhile (fun c => !(c == '+' || c == '-'))
  (t, cs.drop t.length)

/-- Python `datetime.fromisoformat` on the grammar subset the bridge uses
(see the header comment). -/
def datetime_fromiso (cs : List Char) : Option PyDateTime :=
  if cs.length = 10 then
    (date_fromiso cs).map (fun t =>
      match t with
      | (y, m, d) => ⟨y, m, d, 0, 0, 0, none⟩)
  else if cs.length < 10 then none
  else
    match date_fromiso (cs.take 10) with
    | none => none
    | some (y, m, d) =>
      match cs.drop 10 with
      | [] => none
      | sep :: timeRest =>
        if sep == 'T' || sep == ' ' then
          let p := splitAtSign timeRest
          match time_fromiso p.1 with
          | none => none
          | some (h, mi, s) =>
            match p.2 with
            | [] => some ⟨y, m, d, h, mi, s, none⟩
            | opart =>
              match offset_fromiso opart with
              | none => none
              | some off => some ⟨y, m, d, h, mi, s, some (.utcOff off)⟩
        else none

/-- `if v.endswith("Z"): v = v[:-1] + "+00:00"` from `_parse_iso_datetime`. -/
def zReplace (cs : List Char) : List Char :=
  if cs.getLast? == some 'Z' then cs.dropLast ++ "+00:00".data else cs

/-- The timezone applied to a naive result:
`ZoneInfo(tz)` when a zone name is given, else `timezone.utc`. -/
def tzOf : Option String → Tz
  | some z => .zoneinfo z
  | none => .utcOff 0

/-- `len(v) == 10 and v[4] == "-" and v[7] == "-"` from `_parse_iso_datetime`. -/
def dateOnlyGuard (cs : List Char) : Bool :=
  cs.length == 10 && cs.get? 4 == some '-' && cs.get? 7 == some '-'

/-- The message of the `ValueError` raised by `_parse_iso_datetime`. -/
def invalidMsg (value : String) : String :=
  "Invalid ISO datetime \x27" ++ value ++ "\x27. Use YYYY-MM-DD or RFC3339/ISO-8601 format."

/-- The `try:` body of `_parse_iso_datetime` on the stripped input:
`none` stands for any exception (all are caught and turned into the
`ValueError`). -/
def parse_attempt (v : List Char) (tz : Option String) : Option PyDateTime :=
  if dateOnlyGuard v then
    (date_fromiso v).map (fun t =>
      match t with
      | (y, m, d) => ⟨y, m, d, 0, 0, 0, some (tzOf tz)⟩)
  else
    (datetime_fromiso (zReplace v)).map (fun dt =>
      if dt.tz = none then { dt with tz := some (tzOf tz) } else dt)

/-- `_parse_iso_datetime(value, tz)` from src/server.py lines 65-90
(identical to `ICalUtils.parse_iso_datetime` in src/ical_utils.py).
`.ok none` is Python `None`, `.error` is the raised `ValueError`. -/
def parse_iso_datetime (value : Option String) (tz : Option String) :
    Except String (Option PyDateTime) :=
  match value with
  | none => .ok none
  | some value =>
    if value.data = [] then .ok none
    else
      match parse_attempt (pyStrip value.data) tz with
      | some dt => .ok (some dt)
      | none => .error (invalidMsg value)

/-- `str(x)` on an optional iCalendar text property: Python renders a
missing property (`None`) as the string "None". -/
def pyStr (o : Option String) : String := o.getD "None"

/-- Python truthiness of an optional string (`if x:`): `None` and the
empty string are falsy. -/
def strTruthy (o : Option String) : Bool :=
  match o with
  | some s => s.data ≠ []
  | none => false

/-- The value of a VALARM TRIGGER property: either a `timedelta`
(total seconds, negative = before the anchor) or an absolute datetime. -/
inductive TriggerVal where
  | duration (seconds : Int)
  | absolute (dt : PyDateTime)
deriving DecidableEq, Repr

/-- The DTSTART/DTEND `.dt` value: a `date` (all-day) or a `datetime`. -/
inductive DtValue where
  | onDate (year month day : Nat)
  | at_ (dt : PyDateTime)
deriving DecidableEq, Repr

/-- A VALARM subcomponent as the bridge reads and writes it. -/
structure IcsAlarm where
  uid : Option String
  xWrAlarmUid : Option String
  action : Option String
  description : Option String
  trigger : Option TriggerVal
  related : Option String
deriving DecidableEq, Repr

/-- A VEVENT component.  The named fields are the properties the rebuild
code in src/server.py reads; `otherProps` carries every other property of
the decoded event (ATTENDEE, CATEGORIES, STATUS, ...), which the rebuild
never reads.  `sequence` is the SEQUENCE property as an integer
(`none` = absent, in which case `event.get("sequence", 0)` yields 0). -/
structure IcsEvent where
  uid : Option String
  dtstamp : Option PyDateTime
  dtstart : Option DtValue
  dtend : Option DtValue
  rrule : Option String
  summary : Option String
  description : Option String
  location : Option String
  sequence : Option Int
  otherProps : List (String × String)
  alarms : List IcsAlarm
deriving DecidableEq, Repr

/-- `existing_minutes == int(minutes_before)` for one alarm:
`int(abs(value.total_seconds()) // 60)` when the TRIGGER is a `timedelta`,
otherwise no match.  Used by the dedupe check and the minutes matchers. -/
def trigEq (minutes : Int) (a : IcsAlarm) : Bool :=
  match a.trigger with
  | some (.duration secs) => (Int.ofNat (secs.natAbs / 60)) == minutes
  | _ => false

/-- The dedupe loop of `add_event_alarm` (src/server.py lines 703-716):
scan the existing alarms for one whose trigger minutes equal the request. -/
def hasDuplicateTrigger (alarms : List IcsAlarm) (minutes : Int) : Bool :=
  alarms.any (trigEq minutes)

/-- The alarm built by `ICalUtils.create_alarm` and inline in the tools:
`ACTION = action or "DISPLAY"`, DESCRIPTION only when truthy,
`TRIGGER = timedelta(minutes=-int(minutes_before))`,
`RELATED = related or "START"`, a fresh uid mirrored into X-WR-ALARMUID. -/
def mkAlarm (minutes : Int) (description : Option String)
    (action related : String) (freshUid : String) : IcsAlarm :=
  { uid := some freshUid,
    xWrAlarmUid := some freshUid,
    action := some (if action.data = [] then "DISPLAY" else action),
    description := if strTruthy description then description else none,
    trigger := some (.duration (-minutes * 60)),
    related := some (if related.data = [] then "START" else related) }

/-- iCalendar TEXT escaping as applied by `vText.to_ical` (icalendar
`escape_char`, applied replace-by-replace: backslash, then `;`, then `,`,
then CRLF, then LF; the sequential replaces coincide with this one-pass
scan).  The source copies description/location through
`value.to_ical().decode("utf-8")`, so the copied in-memory value is the
ESCAPED text, not the original. -/
def escape_char : List Char → List Char
  | [] => []
  | '\\' :: rest => '\\' :: '\\' :: escape_char rest
  | ';' :: rest => '\\' :: ';' :: escape_char rest
  | ',' :: rest => '\\' :: ',' :: escape_char rest
  | '\r' :: '\n' :: rest => '\\' :: 'n' :: escape_char rest
  | '\n' :: rest => '\\' :: 'n' :: escape_char rest
  | c :: rest => c :: escape_char rest

/-- `value.to_ical().decode("utf-8")` on a vText value. -/
def escapeText (s : String) : String := String.mk (escape_char s.data)

/-- Days in the months of year `y` before month `m`. -/
def daysBeforeMonth (y m : Nat) : Nat :=
  (List.range (m - 1)).foldl (fun acc i => acc + daysInMonth y (i + 1)) 0

/-- Day number of a proleptic-Gregorian civil date, counted from
0001-01-01 = 0. -/
def dayNumberOfCivil (y m d : Nat) : Nat :=
  (y - 1) * 365 + (y - 1) / 4 - (y - 1) / 100 + (y - 1) / 400
    + daysBeforeMonth y m + (d - 1)

/-- Civil date of a day number (inverse of `dayNumberOfCivil`; the
standard era / day-of-era algorithm, shifted to the 0000-03-01 epoch). -/
def civilOfDayNumber (z : Nat) : Nat × Nat × Nat :=
  let zs := z + 306
  let era := zs / 146097
  let doe := zs % 146097
  let yoe := (doe - doe / 1460 + doe / 36524 - doe / 146096) / 365
  let y := era * 400 + yoe
  let doy := doe - (365 * yoe + yoe / 4 - yoe / 100)
  let mp := (5 * doy + 2) / 153
  let d := doy - (153 * mp + 2) / 5 + 1
  let m := if mp < 10 then mp + 3 else mp - 9
  (if m ≤ 2 then y + 1 else y, m, d)

/-- `value.astimezone(timezone.utc)` for a datetime carrying a fixed
offset of `k` minutes: shift the clock by `-k` minutes and retag as UTC
(seconds are unchanged; offsets are whole minutes here). -/
def astimezoneUTC (dt : PyDateTime) (k : Int) : PyDateTime :=
  let total : Int :=
    Int.ofNat (dayNumberOfCivil dt.year dt.month dt.day * 1440
                + dt.hour * 60 + dt.minute) - k
  let n := total.toNat
  let c := civilOfDayNumber (n / 1440)
  ⟨c.1, c.2.1, c.2.2, n % 1440 / 60, n % 1440 % 60, dt.second, some (.utcOff 0)⟩

/-- `new_event.add("dtstamp", value)`: icalendar `Component.add` forces
DTSTAMP/CREATED/LAST-MODIFIED to UTC — a naive datetime is assumed UTC
and tagged, an aware non-UTC datetime goes through `astimezone(utc)`.
The fixed-offset conversion is implemented above; conversion out of a
named `ZoneInfo` zone needs the tz database and is outside the modeled
subset (kept unchanged; no theorem depends on that branch). -/
def addUTCDtstamp (dt : PyDateTime) : PyDateTime :=
  match dt.tz with
  | none => { dt with tz := some (.utcOff 0) }
  | some (.utcOff k) => if k = 0 then dt else astimezoneUTC dt k
  | some (.zoneinfo _) => dt

/-- The DTSTAMP written by the rebuild: the original value through the
UTC-forcing `add`, or `datetime.now(timezone.utc)` when absent (the `now`
stand-in is UTC-aware by construction, on which the same `add` is the
identity). -/
def copiedDtstamp (orig : Option PyDateTime) (now : PyDateTime) : PyDateTime :=
  match orig with
  | some ts => addUTCDtstamp ts
  | none => now

/-- The property-copy block repeated verbatim in `add_event_alarm`,
`replace_event_alarm` and `remove_event_alarm` (src/server.py): copy uid
via `str()` (else synthesize `uuid4()@icloud-caldav-mcp`), re-add dtstamp
(forced to UTC by `Component.add`; `datetime.now(timezone.utc)` when
absent), copy dtstart/dtend, copy rrule/summary via `str()` when truthy,
copy description/location when truthy via `to_ical().decode()` — i.e.
through iCalendar TEXT escaping — and set SEQUENCE to the original
sequence (0 when absent) plus one.  The fresh event starts with no other
properties and no alarms; the callers fill `alarms` afterwards. -/
def copyCore (orig : IcsEvent) (freshEventUid : String) (now : PyDateTime) : IcsEvent :=
  { uid := if strTruthy orig.uid then orig.uid
           else some (freshEventUid ++ "@icloud-caldav-mcp"),
    dtstamp := some (copiedDtstamp orig.dtstamp now),
    dtstart := orig.dtstart,
    dtend := orig.dtend,
    rrule := if strTruthy orig.rrule then orig.rrule else none,
    summary := if strTruthy orig.summary then orig.summary else none,
    description := if strTruthy orig.description then orig.description.map escapeText
                   else none,
    location := if strTruthy orig.location then orig.location.map escapeText
                else none,
    sequence := some (orig.sequence.getD 0 + 1),
    otherProps := [],
    alarms := [] }

/-- The match predicate of the `replace_event_alarm` copy loop
(src/server.py lines 880-902): an alarm is dropped (not kept) when it
matches by uid / X-WR-ALARMUID string equality, or by trigger minutes. -/
def replaceMatches (match_by : String) (alarm_uid : Option String)
    (minutes_before : Option Int) (a : IcsAlarm) : Bool :=
  if match_by == "uid" && strTruthy alarm_uid then
    pyStr a.uid == alarm_uid.getD "" || pyStr a.xWrAlarmUid == alarm_uid.getD ""
  else if match_by == "minutes" && minutes_before.isSome then
    trigEq (minutes_before.getD 0) a
  else false

/-- The match predicate of the `remove_event_alarm` loop
(src/server.py lines 1005-1023): `all` removes every alarm, otherwise as
in replace. -/
def removeMatches (match_by : String) (alarm_uid : Option String)
    (minutes_before : Option Int) (a : IcsAlarm) : Bool :=
  if match_by == "all" then true
  else if match_by == "uid" && strTruthy alarm_uid then
    pyStr a.uid == alarm_uid.getD "" || pyStr a.xWrAlarmUid == alarm_uid.getD ""
  else if match_by == "minutes" && minutes_before.isSome then
    trigEq (minutes_before.getD 0) a
  else false

/-- The `for a in original_event.walk("valarm")` loop of
`replace_event_alarm`: append each alarm whose `keep` flag stayed true.
(The clone through `IcsAlarm.from_ical(a.to_ical())`, with the raw alarm
as fallback, preserves the alarm value either way.) -/
def keptAlarms (keep : IcsAlarm → Bool) : List IcsAlarm → List IcsAlarm
  | [] => []
  | a :: rest => if keep a then a :: keptAlarms keep rest else keptAlarms keep rest

/-- The `remove_event_alarm` loop: count removed alarms and keep the rest
in order. -/
def removeLoop (remove : IcsAlarm → Bool) : List IcsAlarm → Nat × List IcsAlarm
  | [] => (0, [])
  | a :: rest =>
    let r := removeLoop remove rest
    if remove a then (r.1 + 1, r.2) else (r.1, a :: r.2)

/-- The outcome of one mutating tool call: the event written back to the
store (`none` when the call did not write), and the returned response
dictionary. -/
structure ToolResult where
  event : Option IcsEvent
  response : List (String × String)
deriving DecidableEq, Repr

/-- The `try: event_obj.save() except Exception: pass` tail shared by the
mutating tools: the save outcome is computed and then discarded.  `none`
is a successful save, `some msg` a raised exception. -/
def trySave (saveOk : Bool) : Option String :=
  if saveOk then none else some "save failed"

/-- `add_event_alarm` (src/server.py lines 669-794) after the event has
been fetched and its first VEVENT parsed (`original_event`; `none` when
`IcsCalendar.from_ical` raised).  `freshEventUid`/`freshAlarmUid` stand
for the two `uuid4()` calls, `now` for `datetime.now(timezone.utc)`,
`saveOk` for the outcome of `event_obj.save()`. -/
def add_event_alarm (original_event : Option IcsEvent) (minutes_before : Int)
    (description : Option String) (action related : String)
    (dedupe_by_trigger : Bool) (freshEventUid freshAlarmUid : String)
    (now : PyDateTime) (event_url : Option String) (saveOk : Bool) :
    Except String ToolResult :=
  match original_event with
  | none => .error "Unable to parse original event for alarm add."
  | some orig =>
    if dedupe_by_trigger && hasDuplicateTrigger orig.alarms minutes_before then
      .ok { event := none,
            response := [("status", "skipped"), ("reason", "duplicate_trigger"),
                         ("event_url", event_url.getD "")] }
    else
      let newEvent : IcsEvent :=
        { copyCore orig freshEventUid now with
          alarms := orig.alarms ++ [mkAlarm minutes_before description action related freshAlarmUid] }
      let _saveError := trySave saveOk
      .ok { event := some newEvent,
            response := [("status", "added"), ("event_url", event_url.getD "")] }

/-- `replace_event_alarm` (src/server.py lines 801-926) after fetch and
parse, with the same stand-in inputs as `add_event_alarm`. -/
def replace_event_alarm (original_event : Option IcsEvent) (match_by : String)
    (minutes_before : Option Int) (alarm_uid : Option String)
    (new_minutes_before : Int) (description : Option String)
    (action related : String) (freshEventUid freshAlarmUid : String)
    (now : PyDateTime) (event_url : Option String) (saveOk : Bool) :
    Except String ToolResult :=
  match original_event with
  | none => .error "Unable to parse original event for alarm replacement."
  | some orig =>
    let newEvent : IcsEvent :=
      { copyCore orig freshEventUid now with
        alarms := keptAlarms (fun a => !(replaceMatches match_by alarm_uid minutes_before a))
                    orig.alarms
                  ++ [mkAlarm new_minutes_before description action related freshAlarmUid] }
    let _saveError := trySave saveOk
    .ok { event := some newEvent,
          response := [("status", "replaced"), ("event_url", event_url.getD "")] }

/-- `remove_event_alarm` (src/server.py lines 932-1045) after fetch and
parse, with the same stand-in inputs. -/
def remove_event_alarm (original_event : Option IcsEvent) (match_by : String)
    (minutes_before : Option Int) (alarm_uid : Option String)
    (freshEventUid : String) (now : PyDateTime) (event_url : Option String)
    (saveOk : Bool) : Except String ToolResult :=
  match original_event with
  | none => .error "Unable to parse original event for alarm removal."
  | some orig =>
    let r := removeLoop (removeMatches match_by alarm_uid minutes_before) orig.alarms
    let newEvent : IcsEvent := { copyCore orig freshEventUid now with alarms := r.2 }
    let _saveError := trySave saveOk
    .ok { event := some newEvent,
          response := [("status", "removed"), ("removed", toString r.1),
                       ("event_url", event_url.getD "")] }

/-- The dtstart/dtend override rule of `update_my_event`: when the caller
supplies a string it is parsed (a parse exception propagates, and an
empty string clears the field because `_parse_iso_datetime` returns
`None`); when the caller supplies nothing the original value is copied. -/
def overrideDt (ov : Option String) (tz : Option String) (origVal : Option DtValue) :
    Except String (Option DtValue) :=
  match ov with
  | some s =>
    match parse_iso_datetime (some s) tz with
    | .error e => .error e
    | .ok ns => .ok (ns.map DtValue.at_)
  | none => .ok origVal

/-- `update_my_event` (src/server.py lines 432-612) after the event has
been fetched and its first VEVENT parsed (`original_event`; note that a
parse failure does NOT raise here — the tool rebuilds a minimal event).
Overrides equal to `none` mean "parameter not supplied".  As in
`copyCore`: the no-override description/location copies go through
`to_ical().decode()` (iCalendar TEXT escaping) and the dtstamp re-add is
forced to UTC by `Component.add`; supplied override strings are stored
as given. -/
def update_my_event (original_event : Option IcsEvent)
    (summary start end_ description location : Option String)
    (timezone_name : Option String) (rrule : Option String)
    (alarm_minutes_before : Option Int) (freshEventUid freshAlarmUid : String)
    (now : PyDateTime) (event_url : Option String) (saveOk : Bool) :
    Except String ToolResult :=
  match original_event with
  | some orig =>
    match overrideDt start timezone_name orig.dtstart with
    | .error e => .error e
    | .ok dtstart =>
      match overrideDt end_ timezone_name orig.dtend with
      | .error e => .error e
      | .ok dtend =>
        let base : IcsEvent :=
          { uid := if strTruthy orig.uid then orig.uid
                   else some (freshEventUid ++ "@icloud-caldav-mcp"),
            dtstamp := some (copiedDtstamp orig.dtstamp now),
            dtstart := dtstart,
            dtend := dtend,
            rrule := match rrule with
                     | some r => some r
                     | none => if strTruthy orig.rrule then orig.rrule else none,
            summary := match summary with
                       | some s => some s
                       | none => if strTruthy orig.summary then orig.summary else none,
            description := match description with
                           | some s => some s
                           | none => if strTruthy orig.description then
                                       orig.description.map escapeText
                                     else none,
            location := match location with
                        | some s => some s
                        | none => if strTruthy orig.location then
                                    orig.location.map escapeText
                                  else none,
            sequence := some (orig.sequence.getD 0 + 1),
            otherProps := [],
            alarms := match alarm_minutes_before with
                      | some m =>
                        if 0 ≤ m then
                          mkAlarm m (some "Reminder") "DISPLAY" "START" freshAlarmUid :: orig.alarms
                        else orig.alarms
                      | none => orig.alarms }
        let _saveError := trySave saveOk
        .ok { event := some base,
              response := [("status", "updated"), ("event_url", event_url.getD "")] }
  | none =>
    match overrideDt start timezone_name none with
    | .error e => .error e
    | .ok dtstart =>
      match overrideDt end_ timezone_name none with
      | .error e => .error e
      | .ok dtend =>
        let base : IcsEvent :=
          { uid := some (freshEventUid ++ "@icloud-caldav-mcp"),
            dtstamp := some now,
            dtstart := dtstart,
            dtend := dtend,
            rrule := rrule,
            summary := summary,
            description := description,
            location := location,
            sequence := some 1,
            otherProps := [],
            alarms := match alarm_minutes_before with
                      | some m =>
                        if 0 ≤ m then [mkAlarm m (some "Reminder") "DISPLAY" "START" freshAlarmUid]
                        else []
                      | none => [] }
        let _saveError := trySave saveOk
        .ok { event := some base,
              response := [("status", "updated"), ("event_url", event_url.getD "")] }

/-- Hex digit value for percent-decoding. -/
def hexVal (c : Char) : Option Nat :=
  if c.isDigit then some (c.toNat - 48)
  else if 97 ≤ c.toNat ∧ c.toNat ≤ 102 then some (c.toNat - 87)
  else if 65 ≤ c.toNat ∧ c.toNat ≤ 70 then some (c.toNat - 55)
  else none

/-- Python `urllib.parse.unquote` for percent-escapes of single-byte
(ASCII) characters — the case exercised by iCloud UID filenames; a `%`
not followed by two hex digits is kept verbatim, as in Python. -/
def unquoteChars : List Char → List Char
  | [] => []
  | '%' :: a :: b :: rest =>
    match hexVal a, hexVal b with
    | some x, some y => Char.ofNat (16 * x + y) :: unquoteChars rest
    | _, _ => '%' :: unquoteChars (a :: b :: rest)
  | c :: rest => c :: unquoteChars rest

/-- Scheme characters accepted by `urllib.parse.urlsplit`. -/
def isSchemeChar (c : Char) : Bool :=
  c.isAlphanum || c == '+' || c == '-' || c == '.'

/-- `urlsplit` step 1: the fragment starts at the first `#`. -/
def dropFragment (cs : List Char) : List Char :=
  cs.takeWhile (fun c => !(c == '#'))

/-- `urlsplit` step 2: strip a leading `scheme:` when the text before the
first colon is a valid scheme (starts with a letter, scheme chars only). -/
def stripScheme (cs : List Char) : List Char :=
  let pre := cs.takeWhile (fun c => !(c == ':'))
  if pre.length = cs.length then cs
  else
    match pre with
    | [] => cs
    | c :: _ => if c.isAlpha && pre.all isSchemeChar then cs.drop (pre.length + 1) else cs

/-- `urlsplit` step 3: after `//`, the netloc runs to the first of
`/`, `?` or `#`. -/
def stripNetloc (cs : List Char) : List Char :=
  match cs with
  | '/' :: '/' :: rest => rest.dropWhile (fun c => !(c == '/' || c == '?' || c == '#'))
  | _ => cs

/-- `urlsplit` step 4: the query starts at the first `?`. -/
def dropQuery (cs : List Char) : List Char :=
  cs.takeWhile (fun c => !(c == '?'))

/-- `urlparse(event_url).path` on the URL shapes handled here
(absolute URLs and plain paths). -/
def urlparse_path (cs : List Char) : List Char :=
  dropQuery (stripNetloc (stripScheme (dropFragment cs)))

/-- `path.rsplit("/", 1)[-1]`: everything after the last slash (the whole
path when it has no slash). -/
def afterLastSlash (cs : List Char) : List Char :=
  (cs.reverse.takeWhile (fun c => !(c == '/'))).reverse

/-- `filename[:-4]` when `filename.lower().endswith(".ics")`. -/
def stripIcsSuffix (cs : List Char) : List Char :=
  if (cs.map Char.toLower).reverse.take 4 == "sci.".data then
    cs.take (cs.length - 4)
  else cs

/-- `_uid_from_event_url` from src/server.py lines 129-141 (identical to
`CalDAVClient._uid_from_event_url`): take the last path segment of the
URL, strip a case-insensitive `.ics` suffix, percent-decode. -/
def uid_from_event_url (event_url : Option String) : Option String :=
  match event_url with
  | none => none
  | some u =>
    if u.data = [] then none
    else
      some (String.mk (unquoteChars (stripIcsSuffix (afterLastSlash (urlparse_path u.data)))))

/-- `_get_event_by_url_or_uid` from src/server.py lines 144-164 (identical
in structure to `CalDAVClient.get_event_by_url_or_uid`).  `lookup` stands
for `cal.event_by_uid` (`none` = the exception caught by the
`except: pass`), `byUrl` for the `caldav.Event(client=..., url=...)`
fallback constructor. -/
def get_event_by_url_or_uid {α : Type} (lookup : String → Option α)
    (byUrl : String → Option α) (event_url : Option String)
    (uid : Option String) : Except String α :=
  let viaUid : Option α :=
    match uid with
    | some u => if u.data = [] then none else lookup u
    | none => none
  match viaUid with
  | some ev => .ok ev
  | none =>
    let viaUrl : Option α :=
      match event_url with
      | some url =>
        if url.data = [] then none
        else
          let viaGuess : Option α :=
            match uid_from_event_url (some url) with
            | some g => if g.data = [] then none else lookup g
            | none => none
          match viaGuess with
          | some ev => some ev
          | none => byUrl url
      | none => none
    match viaUrl with
    | some ev => .ok ev
    | none => .error "Event not found by URL or UID."

/-! ### Sample data used by the concrete theorems -/

/-- A 10-minutes-before DISPLAY alarm with uid `u`. -/
def alarmTen (u : String) : IcsAlarm :=
  { uid := some u, xWrAlarmUid := some u, action := some "DISPLAY",
    description := some "Reminder", trigger := some (.duration (-600)),
    related := some "START" }

def sampleNow : PyDateTime := ⟨2024, 1, 1, 0, 0, 0, some (.utcOff 0)⟩

/-- An event with two alarms that both trigger 10 minutes before start. -/
def eventTwoTenAlarms : IcsEvent :=
  { uid := some "EV1", dtstamp := some sampleNow,
    dtstart := some (.at_ ⟨2024, 1, 10, 9, 0, 0, some (.utcOff 0)⟩),
    dtend := none, rrule := none, summary := some "Standup",
    description := none, location := none, sequence := some 2,
    otherProps := [], alarms := [alarmTen "A1", alarmTen "A2"] }

/-- An event with sequence 5 and one 10-minute alarm. -/
def eventSeq5 : IcsEvent :=
  { uid := some "EV3", dtstamp := none, dtstart := none, dtend := none,
    rrule := none, summary := some "Standup", description := none,
    location := none, sequence := some 5, otherProps := [],
    alarms := [alarmTen "A1"] }

/-- An event carrying properties outside the copied set. -/
def statusEvent : IcsEvent :=
  { uid := some "EV2", dtstamp := some sampleNow,
    dtstart := some (.onDate 2024 3 1), dtend := some (.onDate 2024 3 2),
    rrule := none, summary := some "Trip", description := none,
    location := none, sequence := some 0,
    otherProps := [("STATUS", "CONFIRMED"), ("CATEGORIES", "Travel")],
    alarms := [] }

/-- `statusEvent` after `update_my_event` with no overrides. -/
def patchedStatusEvent : IcsEvent :=
  { uid := some "EV2", dtstamp := some sampleNow,
    dtstart := some (.onDate 2024 3 1), dtend := some (.onDate 2024 3 2),
    rrule := none, summary := some "Trip", description := none,
    location := none, sequence := some 1, otherProps := [], alarms := [] }

/-- `eventSeq5` after `update_my_event` with `summary="New"`. -/
def updatedSeq5 : IcsEvent :=
  { uid := some "EV3", dtstamp := some sampleNow, dtstart := none,
    dtend := none, rrule := none, summary := some "New", description := none,
    location := none, sequence := some 6, otherProps := [],
    alarms := [alarmTen "A1"] }

/-- `eventSeq5` after `remove_event_alarm` that matched nothing. -/
def removedZeroSeq5 : IcsEvent :=
  { uid := some "EV3", dtstamp := some sampleNow, dtstart := none,
    dtend := none, rrule := none, summary := some "Standup",
    description := none, location := none, sequence := some 6,
    otherProps := [], alarms := [alarmTen "A1"] }

/-- `eventSeq5` after `remove_event_alarm` with `match_by="all"`. -/
def removedAllSeq5 : IcsEvent :=
  { uid := some "EV3", dtstamp := some sampleNow, dtstart := none,
    dtend := none, rrule := none, summary := some "Standup",
    description := none, location := none, sequence := some 6,
    otherProps := [], alarms := [] }

/-- `eventTwoTenAlarms` after `replace_event_alarm` matching 10 minutes. -/
def replacedTwoTen : IcsEvent :=
  { uid := some "EV1", dtstamp := some sampleNow,
    dtstart := some (.at_ ⟨2024, 1, 10, 9, 0, 0, some (.utcOff 0)⟩),
    dtend := none, rrule := none, summary := some "Standup",
    description := none, location := none, sequence := some 3,
    otherProps := [],
    alarms := [mkAlarm 15 (some "Reminder") "DISPLAY" "START" "G"] }

/-- A concrete store lookup used by the C9 witness. -/
def demoLookup : String → Option Nat :=
  fun s => if s == "55FA1234" then some 3 else none

/-! ### Structural lemmas about the alarm loops -/

theorem keptAlarms_eq_filter (keep : IcsAlarm → Bool) (l : List IcsAlarm) :
    keptAlarms keep l = l.filter keep := by
  induction l with
  | nil => rfl
  | cons a rest ih =>
    by_cases h : keep a = true <;> simp [keptAlarms, List.filter, h, ih]

theorem removeLoop_fst (remove : IcsAlarm → Bool) (l : List IcsAlarm) :
    (removeLoop remove l).1 = l.countP remove := by
  induction l with
  | nil => rfl
  | cons a rest ih =>
    by_cases h : remove a = true <;>
      simp [removeLoop, List.countP_cons, h, ih]

theorem removeLoop_snd (remove : IcsAlarm → Bool) (l : List IcsAlarm) :
    (removeLoop remove l).2 = l.filter (fun a => !(remove a)) := by
  induction l with
  | nil => rfl
  | cons a rest ih =>
    by_cases h : remove a = true <;> simp [removeLoop, List.filter, h, ih]

/-! ### Claims -/

/-- C1, counterexample.  The claim says fields beyond the copied set
(e.g. STATUS, CATEGORIES) survive a decode -> patch -> encode cycle when
the patch supplies no override.  `update_my_event` with no overrides drops
them: the rebuilt event carries none of the other properties of the original. -/
theorem C1_counterexample :
    update_my_event (some statusEvent) none none none none none none none none
      "F" "G" sampleNow none true =
      .ok { event := some patchedStatusEvent,
            response := [("status", "updated"), ("event_url", "")] } ∧
    statusEvent.otherProps = [("STATUS", "CONFIRMED"), ("CATEGORIES", "Travel")] ∧
    patchedStatusEvent.otherProps = [] := by decide

/-- C1, amended.  Only the copied set survives, and two of its fields
only up to value rewriting: with no overrides supplied, `update_my_event`
preserves uid, dtstart, dtend, rrule and summary verbatim (each when
present and non-empty), keeps the alarm list, preserves a UTC-aware
dtstamp verbatim (a naive or non-UTC DTSTAMP is rewritten to UTC by the
re-add), copies description and location through iCalendar TEXT escaping
(backslash, semicolon, comma and newline characters are escaped by each
cycle, so only escape-free values survive verbatim), bumps SEQUENCE, and
drops every property outside that set. -/
theorem C1_whitelist_preservation (e : IcsEvent) (ts : PyDateTime)
    (f1 f2 : String) (now : PyDateTime) (url : Option String) (saveOk : Bool)
    (huid : strTruthy e.uid = true)
    (hstamp : e.dtstamp = some ts) (hutc : ts.tz = some (.utcOff 0))
    (hrr : e.rrule = none ∨ strTruthy e.rrule = true)
    (hsum : e.summary = none ∨ strTruthy e.summary = true)
    (hdesc : e.description = none ∨ strTruthy e.description = true)
    (hloc : e.location = none ∨ strTruthy e.location = true) :
    update_my_event (some e) none none none none none none none none
      f1 f2 now url saveOk =
      .ok { event := some { e with
                            description := e.description.map escapeText,
                            location := e.location.map escapeText,
                            sequence := some (e.sequence.getD 0 + 1),
                            otherProps := [] },
            response := [("status", "updated"), ("event_url", url.getD "")] } := by
  obtain ⟨u, ds, t1, t2, rr, sm, de, lo, sq, op, al⟩ := e
  simp only [IcsEvent.dtstamp] at hstamp
  subst hstamp
  simp only [update_my_event, overrideDt]
  rcases hrr with h | h <;> rcases hsum with h2 | h2 <;>
    rcases hdesc with h3 | h3 <;> rcases hloc with h4 | h4 <;>
    simp_all [strTruthy, copiedDtstamp, addUTCDtstamp]

/-- An event whose description and location contain characters subject
to iCalendar TEXT escaping. -/
def commaEvent : IcsEvent :=
  { uid := some "EV4", dtstamp := some sampleNow,
    dtstart := some (.at_ ⟨2024, 5, 2, 12, 0, 0, some (.utcOff 0)⟩),
    dtend := none, rrule := none, summary := some "Lunch",
    description := some "Lunch, then drinks",
    location := some "Cafe; North Wing",
    sequence := some 1, otherProps := [], alarms := [] }

/-- C1, witness for the amended theorem at a concrete event whose
description and location contain a comma and a semicolon: one
no-override patch cycle rewrites them to their escaped forms. -/
theorem C1_witness :
    update_my_event (some commaEvent) none none none none none none none none
      "F" "G" sampleNow none true =
      .ok { event := some { commaEvent with
                            description := commaEvent.description.map escapeText,
                            location := commaEvent.location.map escapeText,
                            sequence := some (commaEvent.sequence.getD 0 + 1),
                            otherProps := [] },
            response := [("status", "updated"), ("event_url", "")] } :=
  C1_whitelist_preservation commaEvent sampleNow "F" "G" sampleNow none true
    (by decide) (by decide) (by decide) (Or.inl (by decide)) (Or.inr (by decide))
    (Or.inr (by decide)) (Or.inr (by decide))

/-- C2, counterexample.  The claim says only the FIRST matching alarm is
removed and later alarms that also satisfy the predicate are preserved.
On an event with two 10-minute alarms, `replace_event_alarm` matching 10
minutes removes BOTH: the second matching alarm is gone from the result. -/
theorem C2_counterexample :
    replace_event_alarm (some eventTwoTenAlarms) "minutes" (some 10) none 15
      (some "Reminder") "DISPLAY" "START" "F" "G" sampleNow none true =
      .ok { event := some replacedTwoTen,
            response := [("status", "replaced"), ("event_url", "")] } ∧
    replaceMatches "minutes" none (some 10) (alarmTen "A2") = true ∧
    alarmTen "A2" ∈ eventTwoTenAlarms.alarms ∧
    alarmTen "A2" ∉ replacedTwoTen.alarms := by decide

/-- C2, amended.  `replace_event_alarm` removes ALL alarms satisfying the
match predicate (not just the first), appends one new alarm built from the
supplied fields, bumps SEQUENCE, and preserves the non-matching alarms in
order; when nothing matches the net effect is an append. -/
theorem C2_replace_removes_all_matching (orig : IcsEvent) (match_by : String)
    (minutes_before : Option Int) (alarm_uid : Option String)
    (new_minutes_before : Int) (description : Option String)
    (action related : String) (f1 f2 : String) (now : PyDateTime)
    (url : Option String) (saveOk : Bool) :
    ∃ ev, replace_event_alarm (some orig) match_by minutes_before alarm_uid
        new_minutes_before description action related f1 f2 now url saveOk =
      .ok { event := some ev,
            response := [("status", "replaced"), ("event_url", url.getD "")] } ∧
      ev.alarms =
        orig.alarms.filter (fun a => !(replaceMatches match_by alarm_uid minutes_before a))
          ++ [mkAlarm new_minutes_before description action related f2] ∧
      ev.sequence = some (orig.sequence.getD 0 + 1) := by
  refine ⟨_, rfl, ?_, ?_⟩
  · simp [keptAlarms_eq_filter]
  · rfl

/-- C3, counterexample.  The claim says SEQUENCE is bumped only if at
least one alarm was removed.  A `remove_event_alarm` call that matches
nothing reports `removed = 0` yet still bumps SEQUENCE from 5 to 6. -/
theorem C3_counterexample :
    remove_event_alarm (some eventSeq5) "minutes" (some 99) none "F" sampleNow none true =
      .ok { event := some removedZeroSeq5,
            response := [("status", "removed"), ("removed", "0"), ("event_url", "")] } ∧
    eventSeq5.sequence = some 5 ∧
    removedZeroSeq5.sequence = some 6 ∧
    removedZeroSeq5.alarms = eventSeq5.alarms := by decide

/-- C3, amended.  `remove_event_alarm` deletes all alarms satisfying the
predicate (all alarms when `match_by = "all"`), reports a zero-removed
outcome without error when none match, and bumps SEQUENCE
unconditionally — also when zero alarms were removed. -/
theorem C3_remove_matching_always_bumps (orig : IcsEvent) (match_by : String)
    (minutes_before : Option Int) (alarm_uid : Option String) (f1 : String)
    (now : PyDateTime) (url : Option String) (saveOk : Bool) :
    ∃ ev, remove_event_alarm (some orig) match_by minutes_before alarm_uid
        f1 now url saveOk =
      .ok { event := some ev,
            response := [("status", "removed"),
                         ("removed", toString
                           (orig.alarms.countP (removeMatches match_by alarm_uid minutes_before))),
                         ("event_url", url.getD "")] } ∧
      ev.alarms =
        orig.alarms.filter (fun a => !(removeMatches match_by alarm_uid minutes_before a)) ∧
      (match_by = "all" → ev.alarms = []) ∧
      ev.sequence = some (orig.sequence.getD 0 + 1) := by
  refine ⟨{ copyCore orig f1 now with
            alarms := (removeLoop (removeMatches match_by alarm_uid minutes_before)
                        orig.alarms).2 },
          ?_, ?_, ?_, ?_⟩
  · simp [remove_event_alarm, removeLoop_fst]
  · simp [removeLoop_snd]
  · intro hall
    subst hall
    simp [removeLoop_snd, removeMatches]
  · rfl

/-- C3, witness: the amended theorem at `match_by = "all"` on a concrete
event with one alarm. -/
theorem C3_witness :
    ∃ ev, remove_event_alarm (some eventSeq5) "all" none none "F" sampleNow none true =
      .ok { event := some ev,
            response := [("status", "removed"),
                         ("removed", toString
                           (eventSeq5.alarms.countP (removeMatches "all" none none))),
                         ("event_url", "")] } ∧
      ev.alarms = eventSeq5.alarms.filter (fun a => !(removeMatches "all" none none a)) ∧
      ("all" = "all" → ev.alarms = []) ∧
      ev.sequence = some (eventSeq5.sequence.getD 0 + 1) :=
  C3_remove_matching_always_bumps eventSeq5 "all" none none "F" sampleNow none true

/-- C4, counterexample.  The claim says `parse("2024-03-01")` yields a
calendar date, distinguishable from the instant `parse("2024-03-01T00:00:00Z")`.
`_parse_iso_datetime` returns the SAME timezone-aware midnight `datetime`
for both inputs, so no downstream consumer can distinguish them. -/
theorem C4_counterexample :
    parse_iso_datetime (some "2024-03-01") none =
      parse_iso_datetime (some "2024-03-01T00:00:00Z") none ∧
    parse_iso_datetime (some "2024-03-01") none =
      .ok (some ⟨2024, 3, 1, 0, 0, 0, some (.utcOff 0)⟩) := by decide

/-- C4, amended.  A 10-character `YYYY-MM-DD` input (dashes at positions
4 and 7) parses to a timezone-aware `datetime` at midnight — an instant in
the given zone (UTC when no zone is given), not a calendar-date value —
or raises the `ValueError` when the date digits are invalid. -/
theorem C4_date_only_is_midnight_instant (value : String) (tz : Option String)
    (hstrip : pyStrip value.data = value.data)
    (hguard : dateOnlyGuard value.data = true) :
    parse_iso_datetime (some value) tz =
      match date_fromiso value.data with
      | some (y, m, d) => .ok (some ⟨y, m, d, 0, 0, 0, some (tzOf tz)⟩)
      | none => .error (invalidMsg value) := by
  have hlen : value.data.length = 10 := by
    have h1 := hguard
    simp only [dateOnlyGuard, Bool.and_eq_true, beq_iff_eq] at h1
    exact h1.1.1
  have hne : ¬(value.data = []) := by
    intro h
    rw [h] at hlen
    simp at hlen
  simp only [parse_iso_datetime, hne, if_false, parse_attempt, hstrip, hguard, if_true]
  cases h : date_fromiso value.data with
  | none => simp
  | some t =>
    obtain ⟨y, m, d⟩ := t
    simp

/-- C4, witness: the amended theorem at `"2024-03-01"` with a zone name. -/
theorem C4_witness :
    parse_iso_datetime (some "2024-03-01") (some "Asia/Tokyo") =
      match date_fromiso ("2024-03-01").data with
      | some (y, m, d) => .ok (some ⟨y, m, d, 0, 0, 0, some (tzOf (some "Asia/Tokyo"))⟩)
      | none => .error (invalidMsg "2024-03-01") :=
  C4_date_only_is_midnight_instant "2024-03-01" (some "Asia/Tokyo") (by decide) (by decide)

/-- C5.  When the original event parses and carries SEQUENCE `n`, a
successful `update_my_event` call (in particular one with at least one
content-changing override) writes back an event with SEQUENCE `n + 1`. -/
theorem C5_sequence_increment (orig : IcsEvent) (n : Int)
    (summary start end_ description location timezone_name rrule : Option String)
    (alarm_minutes_before : Option Int) (f1 f2 : String) (now : PyDateTime)
    (url : Option String) (saveOk : Bool) (r : ToolResult)
    (hseq : orig.sequence = some n)
    (_hover : summary ≠ none ∨ start ≠ none ∨ end_ ≠ none ∨ description ≠ none ∨
             location ≠ none ∨ rrule ≠ none ∨ alarm_minutes_before ≠ none)
    (hok : update_my_event (some orig) summary start end_ description location
             timezone_name rrule alarm_minutes_before f1 f2 now url saveOk = .ok r) :
    ∃ ev, r.event = some ev ∧ ev.sequence = some (n + 1) := by
  simp only [update_my_event] at hok
  cases h1 : overrideDt start timezone_name orig.dtstart with
  | error e => rw [h1] at hok; simp at hok
  | ok ds =>
    cases h2 : overrideDt end_ timezone_name orig.dtend with
    | error e => rw [h1, h2] at hok; simp at hok
    | ok de =>
      rw [h1, h2] at hok
      simp only [Except.ok.injEq] at hok
      subst hok
      refine ⟨_, rfl, ?_⟩
      simp [hseq]

/-- C5, witness at a concrete event with SEQUENCE 5 and a summary
override. -/
theorem C5_witness :
    ∃ ev, (ToolResult.mk (some updatedSeq5)
            [("status", "updated"), ("event_url", "")]).event = some ev ∧
      ev.sequence = some (5 + 1) :=
  C5_sequence_increment eventSeq5 5 (some "New") none none none none none none none
    "F" "G" sampleNow none true
    (ToolResult.mk (some updatedSeq5) [("status", "updated"), ("event_url", "")])
    (by decide) (Or.inl (by decide)) (by decide)

/-- C6.  The event uid is immutable: when the original carries a
non-empty uid, the event written back by `update_my_event` and by every
alarm tool carries the identical uid; and when the original lacks a uid,
`remove_event_alarm` (like the other tools) writes back the synthesized
`uuid4()@icloud-caldav-mcp` uid, which is itself non-empty and therefore
preserved by any later operation. -/
theorem C6_uid_immutable (orig : IcsEvent) (u : String)
    (hu : orig.uid = some u) (hne : u.data ≠ []) :
    (∀ summary start end_ description location tzn rrule amb f1 f2 now url sOk r ev,
      update_my_event (some orig) summary start end_ description location tzn
          rrule amb f1 f2 now url sOk = .ok r →
      r.event = some ev → ev.uid = some u) ∧
    (∀ mb d a rel ded f1 f2 now url sOk r ev,
      add_event_alarm (some orig) mb d a rel ded f1 f2 now url sOk = .ok r →
      r.event = some ev → ev.uid = some u) ∧
    (∀ mby mb au nmb d a rel f1 f2 now url sOk r ev,
      replace_event_alarm (some orig) mby mb au nmb d a rel f1 f2 now url sOk = .ok r →
      r.event = some ev → ev.uid = some u) ∧
    (∀ mby mb au f1 now url sOk r ev,
      remove_event_alarm (some orig) mby mb au f1 now url sOk = .ok r →
      r.event = some ev → ev.uid = some u) ∧
    (∀ orig2 : IcsEvent, orig2.uid = none →
      ∀ mby mb au f1 now url sOk r ev,
        remove_event_alarm (some orig2) mby mb au f1 now url sOk = .ok r →
        r.event = some ev →
        ev.uid = some (f1 ++ "@icloud-caldav-mcp") ∧
        (f1 ++ "@icloud-caldav-mcp").data ≠ []) := by
  have htruthy : strTruthy orig.uid = true := by simp [strTruthy, hu, hne]
  have htr2 : strTruthy (some u) = true := by simp [strTruthy, hne]
  refine ⟨?_, ?_, ?_, ?_, ?_⟩
  · intro summary start end_ description location tzn rrule amb f1 f2 now url sOk r ev
      hok hev
    simp only [update_my_event] at hok
    cases h1 : overrideDt start tzn orig.dtstart with
    | error e => rw [h1] at hok; simp at hok
    | ok ds =>
      cases h2 : overrideDt end_ tzn orig.dtend with
      | error e => rw [h1, h2] at hok; simp at hok
      | ok de =>
        rw [h1, h2] at hok
        simp only [Except.ok.injEq] at hok
        subst hok
        simp only [htruthy, if_true] at hev
        simp only [Option.some.injEq] at hev
        rw [← hev]
        simp [htruthy, hu]
  · intro mb d a rel ded f1 f2 now url sOk r ev hok hev
    simp only [add_event_alarm] at hok
    by_cases hdup : (ded && hasDuplicateTrigger orig.alarms mb) = true
    · rw [if_pos hdup] at hok
      simp only [Except.ok.injEq] at hok
      subst hok
      simp at hev
    · rw [if_neg hdup] at hok
      simp only [Except.ok.injEq] at hok
      subst hok
      simp only [Option.some.injEq] at hev
      rw [← hev]
      simp [copyCore, htruthy, hu, htr2]
  · intro mby mb au nmb d a rel f1 f2 now url sOk r ev hok hev
    simp only [replace_event_alarm, Except.ok.injEq] at hok
    subst hok
    simp only [Option.some.injEq] at hev
    rw [← hev]
    simp [copyCore, htruthy, hu, htr2]
  · intro mby mb au f1 now url sOk r ev hok hev
    simp only [remove_event_alarm, Except.ok.injEq] at hok
    subst hok
    simp only [Option.some.injEq] at hev
    rw [← hev]
    simp [copyCore, htruthy, hu, htr2]
  · intro orig2 hnone mby mb au f1 now url sOk r ev hok hev
    simp only [remove_event_alarm, Except.ok.injEq] at hok
    subst hok
    simp only [Option.some.injEq] at hev
    rw [← hev]
    constructor
    · simp [copyCore, strTruthy, hnone]
    · simp [String.data_append]

/-- C6, witness: a remove-all call on a concrete event preserves its uid. -/
theorem C6_witness :
    removedAllSeq5.uid = some "EV3" :=
  (C6_uid_immutable eventSeq5 "EV3" (by decide) (by decide)).2.2.2.1
    "all" none none "F" sampleNow none true
    (ToolResult.mk (some removedAllSeq5)
      [("status", "removed"), ("removed", "1"), ("event_url", "")])
    removedAllSeq5 (by decide) rfl

/-- The alarm built for `minutes_before = m` (with `m ≥ 0`) is itself
recognised by the trigger-minutes test: its TRIGGER is
`timedelta(minutes=-m)`, i.e. `-m * 60` seconds, and
`int(abs(-m * 60) // 60) == m`. -/
theorem trigEq_mkAlarm (m : Int) (hm : 0 ≤ m) (d : Option String)
    (a rel f : String) : trigEq m (mkAlarm m d a rel f) = true := by
  simp only [trigEq, mkAlarm, beq_iff_eq]
  have h1 : (-m * 60).natAbs = m.natAbs * 60 := by
    rw [neg_mul, Int.natAbs_neg, Int.natAbs_mul]
    rfl
  rw [h1, Nat.mul_div_cancel _ (by norm_num)]
  exact Int.natAbs_of_nonneg hm

/-- C7.  With `dedupe_by_trigger = true`: (a) when an existing alarm
already has the requested trigger minutes, `add_event_alarm` writes
nothing back and reports the skipped/duplicate outcome; (b) starting from
an event with no alarm at `m` minutes (`m ≥ 0`), a first add appends
exactly one alarm with that trigger and a second identical add is skipped
with nothing written back — so two identical adds yield exactly one alarm
with that trigger value. -/
theorem C7_dedupe_idempotent (orig : IcsEvent) (m : Int) (d : Option String)
    (a rel : String) (f1 f2 f3 f4 : String) (now now2 : PyDateTime)
    (url url2 : Option String) (s1 s2 : Bool) :
    (hasDuplicateTrigger orig.alarms m = true →
      add_event_alarm (some orig) m d a rel true f1 f2 now url s1 =
        .ok { event := none,
              response := [("status", "skipped"), ("reason", "duplicate_trigger"),
                           ("event_url", url.getD "")] }) ∧
    (0 ≤ m → orig.alarms.countP (trigEq m) = 0 →
      ∃ e1, add_event_alarm (some orig) m d a rel true f1 f2 now url s1 =
          .ok { event := some e1,
                response := [("status", "added"), ("event_url", url.getD "")] } ∧
        e1.alarms.countP (trigEq m) = 1 ∧
        add_event_alarm (some e1) m d a rel true f3 f4 now2 url2 s2 =
          .ok { event := none,
                response := [("status", "skipped"), ("reason", "duplicate_trigger"),
                             ("event_url", url2.getD "")] }) := by
  constructor
  · intro hdup
    simp [add_event_alarm, hdup]
  · intro hm hcount
    have hnone : ∀ x ∈ orig.alarms, ¬(trigEq m x = true) := by
      intro x hx
      exact List.countP_eq_zero.mp hcount x hx
    have hdupfalse : hasDuplicateTrigger orig.alarms m = false := by
      simp only [hasDuplicateTrigger, List.any_eq_false]
      exact hnone
    refine ⟨{ copyCore orig f1 now with
              alarms := orig.alarms ++ [mkAlarm m d a rel f2] }, ?_, ?_, ?_⟩
    · simp [add_event_alarm, hdupfalse]
    · simp [List.countP_append, hcount, List.countP_cons, trigEq_mkAlarm m hm]
    · have hdup2 : hasDuplicateTrigger
          (orig.alarms ++ [mkAlarm m d a rel f2]) m = true := by
        simp [hasDuplicateTrigger, List.any_append, trigEq_mkAlarm m hm]
      simp [add_event_alarm, hdup2]

/-- C7, witness: part (b) at a concrete alarm-free event with `m = 10`. -/
theorem C7_witness :
    ∃ e1, add_event_alarm (some statusEvent) 10 (some "Reminder") "DISPLAY" "START"
        true "F" "G" sampleNow none true =
        .ok { event := some e1,
              response := [("status", "added"), ("event_url", "")] } ∧
      e1.alarms.countP (trigEq 10) = 1 ∧
      add_event_alarm (some e1) 10 (some "Reminder") "DISPLAY" "START"
          true "F2" "G2" sampleNow none true =
        .ok { event := none,
              response := [("status", "skipped"), ("reason", "duplicate_trigger"),
                           ("event_url", "")] } :=
  (C7_dedupe_idempotent statusEvent 10 (some "Reminder") "DISPLAY" "START"
    "F" "G" "F2" "G2" sampleNow sampleNow none none true true).2
    (by decide) (by decide)

/-- C8, counterexample.  A failed save is silently discarded: with the
save outcome failing (`saveOk = false`) `update_my_event` returns exactly
the same response as with a successful save, and that response reports
success ("updated") with no error signal or recorded count. -/
theorem C8_counterexample :
    update_my_event (some eventSeq5) (some "New") none none none none none none none
      "F" "G" sampleNow none false =
      update_my_event (some eventSeq5) (some "New") none none none none none none none
        "F" "G" sampleNow none true ∧
    update_my_event (some eventSeq5) (some "New") none none none none none none none
      "F" "G" sampleNow none false =
      .ok { event := some updatedSeq5,
            response := [("status", "updated"), ("event_url", "")] } := by decide

/-- C8, amended.  The alarm tools DO propagate a failure to parse the
original event as an error; but every mutating tool is independent of the
save outcome (a failed `event_obj.save()` is swallowed by
`except: pass` and the tool still reports success), and `update_my_event`
silently rebuilds a minimal fresh event when the original fails to parse,
reporting "updated". -/
theorem C8_error_signalling :
    (∀ mb d a rel ded f1 f2 now url sOk,
      add_event_alarm none mb d a rel ded f1 f2 now url sOk =
        .error "Unable to parse original event for alarm add.") ∧
    (∀ mby mb au nmb d a rel f1 f2 now url sOk,
      replace_event_alarm none mby mb au nmb d a rel f1 f2 now url sOk =
        .error "Unable to parse original event for alarm replacement.") ∧
    (∀ mby mb au f1 now url sOk,
      remove_event_alarm none mby mb au f1 now url sOk =
        .error "Unable to parse original event for alarm removal.") ∧
    (∀ oe summary start end_ description location tzn rrule amb f1 f2 now url,
      update_my_event oe summary start end_ description location tzn rrule amb
          f1 f2 now url true =
        update_my_event oe summary start end_ description location tzn rrule amb
          f1 f2 now url false) ∧
    (∀ oe mb d a rel ded f1 f2 now url,
      add_event_alarm oe mb d a rel ded f1 f2 now url true =
        add_event_alarm oe mb d a rel ded f1 f2 now url false) ∧
    (∀ oe mby mb au nmb d a rel f1 f2 now url,
      replace_event_alarm oe mby mb au nmb d a rel f1 f2 now url true =
        replace_event_alarm oe mby mb au nmb d a rel f1 f2 now url false) ∧
    (∀ oe mby mb au f1 now url,
      remove_event_alarm oe mby mb au f1 now url true =
        remove_event_alarm oe mby mb au f1 now url false) ∧
    (∀ f1 f2 now url sOk,
      update_my_event none none none none none none none none none f1 f2 now url sOk =
        .ok { event := some { uid := some (f1 ++ "@icloud-caldav-mcp"),
                              dtstamp := some now, dtstart := none, dtend := none,
                              rrule := none, summary := none, description := none,
                              location := none, sequence := some 1,
                              otherProps := [], alarms := [] },
              response := [("status", "updated"), ("event_url", url.getD "")] }) := by
  refine ⟨?_, ?_, ?_, ?_, ?_, ?_, ?_, ?_⟩ <;> intros <;> rfl

/-- C9.  Event resolution order: a supplied (non-empty) uid that the
store resolves is used directly; otherwise a supplied address is reduced
to the candidate identifier computed by `uid_from_event_url` (last path
segment, `.ics` stripped, percent-decoded) and that identifier is looked
up; with neither a uid nor an address the call fails with the
not-found error. -/
theorem C9_resolution_order {α : Type} (lookup byUrl : String → Option α) :
    (∀ (u : String) (ev : α) (event_url : Option String),
      u.data ≠ [] → lookup u = some ev →
      get_event_by_url_or_uid lookup byUrl event_url (some u) = .ok ev) ∧
    (∀ (url g : String) (ev : α),
      url.data ≠ [] → uid_from_event_url (some url) = some g → g.data ≠ [] →
      lookup g = some ev →
      get_event_by_url_or_uid lookup byUrl (some url) none = .ok ev) ∧
    (get_event_by_url_or_uid lookup byUrl none none =
      .error "Event not found by URL or UID.") ∧
    (∀ url u : String, url.data = [] → u.data = [] →
      get_event_by_url_or_uid lookup byUrl (some url) (some u) =
        .error "Event not found by URL or UID.") := by
  refine ⟨?_, ?_, rfl, ?_⟩
  · intro u ev event_url hne hl
    simp [get_event_by_url_or_uid, hne, hl]
  · intro url g ev hne hg hgne hl
    simp [get_event_by_url_or_uid, hne, hg, hgne, hl]
  · intro url u h1 h2
    simp [get_event_by_url_or_uid, h1, h2]

/-- C9, witness: resolving by address against a concrete store; the
candidate identifier is derived from the URL filename. -/
theorem C9_witness :
    get_event_by_url_or_uid demoLookup (fun _ => none)
      (some "https://caldav.icloud.com/1/calendars/work/55FA1234.ics") none =
      .ok 3 :=
  (C9_resolution_order demoLookup (fun _ => none)).2.1
    "https://caldav.icloud.com/1/calendars/work/55FA1234.ics" "55FA1234" 3
    (by decide) (by decide) (by decide) (by decide)

/-- C10.  For every zone name, a `None` or empty-string input yields an
absent result with no error; and whenever `_parse_iso_datetime` raises,
the input was a non-empty string and the error carries the original text
in the fixed `ValueError` message. -/
theorem C10_absent_and_malformed (tz : Option String) :
    parse_iso_datetime none tz = .ok none ∧
    parse_iso_datetime (some "") tz = .ok none ∧
    (∀ (v : String) (e : String),
      parse_iso_datetime (some v) tz = .error e → v ≠ "" ∧ e = invalidMsg v) := by
  refine ⟨rfl, rfl, ?_⟩
  intro v e h
  by_cases hv : v.data = []
  · simp [parse_iso_datetime, hv] at h
  · refine ⟨?_, ?_⟩
    · intro hveq
      apply hv
      rw [hveq]
    · simp only [parse_iso_datetime] at h
      rw [if_neg hv] at h
      cases hpa : parse_attempt (pyStrip v.data) tz with
      | some dt => rw [hpa] at h; simp at h
      | none =>
        rw [hpa] at h
        simp only [Except.error.injEq] at h
        exact h.symm

/-- C10, witness: the absent cases and one concrete malformed input. -/
theorem C10_witness :
    parse_iso_datetime none (some "UTC") = .ok none ∧
    parse_iso_datetime (some "") none = .ok none ∧
    ("not-a-date" ≠ "" ∧ invalidMsg "not-a-date" = invalidMsg "not-a-date") :=
  ⟨(C10_absent_and_malformed (some "UTC")).1,
   (C10_absent_and_malformed none).2.1,
   (C10_absent_and_malformed none).2.2 "not-a-date" (invalidMsg "not-a-date") (by decide)⟩
